import Mathlib

/-!
Shallow embedding of the Living Arts video-production pipeline.

Source files embedded here:
* render-service timeline converter (`TimelineConverter.convert`,
  `convertVideoClip`, `convertAudioClip`, `convertOverlayClip`,
  `convertPosition`) and its webhook handler (`handleWebhook`);
* the Pages-app workflow `VideoProductionWorkflow.run`
  (`src/src/workflows/video-production.ts`) with its steps
  `gather-stock-media`, `assemble-timeline`, `wait-for-render` and the
  top-level catch block;
* the worker-variant workflow `VideoProductionWorkflow.run`
  (`workers/video-workflow/src/video-production.ts`) and the worker
  HTTP handlers `handleStart` and `handleWebhook`;
* the app routes `useCreateProject` and `useRetryProject`
  (`src/src/routes/index.tsx`).

Numbers that are JavaScript numbers in the source are modelled as `Rat`;
values that may be `undefined` are modelled as `Option`; fallible calls
are modelled as `Except String` or as oracles supplied as arguments.
-/

namespace LivingArts

/-! ## Render-service timeline converter (render-service/src/timeline/converter.ts) -/

namespace Conv

/-- Shotstack position anchor names, as in the converter's return type. -/
inductive Position where
  | top | topRight | right | bottomRight | bottom | bottomLeft | left | topLeft | center
deriving DecidableEq, Repr

/-- A normalized (x, y) coordinate pair from a clip. -/
structure Coord where
  x : Rat
  y : Rat
deriving DecidableEq, Repr

/-- Optional style fields of an overlay clip in the internal timeline format. -/
structure OurStyle where
  color : Option String := none
  size : Option String := none
  background : Option String := none
  css : Option String := none
deriving DecidableEq, Repr

/-- A clip of the internal timeline format. The source accesses clips
dynamically; fields that a given converter does not read are simply ignored,
and fields that may be `undefined` are `Option`. `transition` holds
`clip.transition.type` when a transition object is present. -/
structure OurClip where
  type : String := ""
  src : String := ""
  content : String := ""
  volume : Option Rat := none
  position : Option Coord := none
  style : Option OurStyle := none
  transition : Option String := none
  start : Rat := 0
  duration : Rat := 0
deriving DecidableEq, Repr

/-- A track of the internal timeline format: a list of clips. -/
structure OurTrack where
  clips : List OurClip
deriving DecidableEq, Repr

/-- The `tracks` object of the internal timeline; each category may be
absent (`undefined`) in the input. -/
structure OurTracks where
  video : Option (List OurTrack) := none
  audio : Option (List OurTrack) := none
  overlay : Option (List OurTrack) := none
deriving DecidableEq, Repr

/-- The soundtrack of the internal timeline. -/
structure OurSoundtrack where
  src : String
  volume : Option Rat := none
  fadeIn : Bool := false
  fadeOut : Bool := false
deriving DecidableEq, Repr

/-- The internal timeline (`OurTimeline` in the source types). Only the
fields the converter reads are modelled. -/
structure OurTimeline where
  fps : Rat
  tracks : Option OurTracks := none
  soundtrack : Option OurSoundtrack := none
deriving DecidableEq, Repr

/-- A Shotstack asset, keyed by kind as the converter builds them. -/
inductive ShotstackAsset where
  | video (src : String) (volume : Rat)
  | audio (src : String) (volume : Rat)
  | title (text : String) (position : Position)
      (color : Option String) (size : Option String) (background : Option String)
  | html (html : String) (position : Position) (css : Option String)
deriving DecidableEq, Repr

/-- A Shotstack clip. `transition` holds the `in` transition when present. -/
structure ShotstackClip where
  asset : ShotstackAsset
  start : Rat
  length : Rat
  transition : Option String := none
deriving DecidableEq, Repr

/-- A Shotstack track. -/
structure ShotstackTrack where
  clips : List ShotstackClip
deriving DecidableEq, Repr

/-- The Shotstack soundtrack block of the edit. -/
structure ShotstackSoundtrack where
  src : String
  volume : Rat
  effect : Option String := none
deriving DecidableEq, Repr

/-- The output block of the Shotstack edit. -/
structure ShotstackOutput where
  format : String
  resolution : String
  fps : Rat
deriving DecidableEq, Repr

/-- The Shotstack edit document produced by the converter. -/
structure ShotstackEdit where
  tracks : List ShotstackTrack
  soundtrack : Option ShotstackSoundtrack := none
  output : ShotstackOutput
  callback : Option String := none
deriving DecidableEq, Repr

/-- Options argument of `TimelineConverter.convert`. -/
structure ConvertOptions where
  format : Option String := none
  resolution : Option String := none
  webhookUrl : Option String := none
deriving DecidableEq, Repr

/-- `TimelineConverter.convertPosition`: quantize normalized (x, y)
coordinates into a 3x3 grid of named anchors; an absent position is center. -/
def convertPosition : Option Coord → Position
  | none => Position.center
  | some p =>
    if p.y < 0.33 then
      if p.x < 0.33 then Position.topLeft
      else if p.x > 0.66 then Position.topRight
      else Position.top
    else if p.y > 0.66 then
      if p.x < 0.33 then Position.bottomLeft
      else if p.x > 0.66 then Position.bottomRight
      else Position.bottom
    else
      if p.x < 0.33 then Position.left
      else if p.x > 0.66 then Position.right
      else Position.center

/-- `TimelineConverter.convertVideoClip`. -/
def convertVideoClip (clip : OurClip) : ShotstackClip :=
  { asset := ShotstackAsset.video clip.src (clip.volume.getD 1)
    start := clip.start
    length := clip.duration
    transition := clip.transition }

/-- `TimelineConverter.convertAudioClip`. -/
def convertAudioClip (clip : OurClip) : ShotstackClip :=
  { asset := ShotstackAsset.audio clip.src (clip.volume.getD 1)
    start := clip.start
    length := clip.duration }

/-- `TimelineConverter.convertOverlayClip`: text clips become title assets
with converted position and optional style fields; other clips become html
assets. -/
def convertOverlayClip (clip : OurClip) : ShotstackClip :=
  let asset :=
    if clip.type = "text" then
      ShotstackAsset.title clip.content (convertPosition clip.position)
        (clip.style.bind OurStyle.color)
        (clip.style.bind OurStyle.size)
        (clip.style.bind OurStyle.background)
    else
      ShotstackAsset.html clip.content (convertPosition clip.position)
        (clip.style.bind OurStyle.css)
  { asset := asset, start := clip.start, length := clip.duration }

/-- One category loop of `convert`: convert every clip of every track and
keep a track only when its converted clip list is non-empty. -/
def convertCategory (f : OurClip → ShotstackClip) (ts : List OurTrack) :
    List ShotstackTrack :=
  ts.filterMap fun t =>
    let clips := t.clips.map f
    if clips.length > 0 then some { clips := clips } else none

/-- The overlay track list read by `convert` (`timeline.tracks?.overlay || []`). -/
def overlayTracksOf (t : OurTimeline) : List OurTrack :=
  (t.tracks.bind OurTracks.overlay).getD []

/-- The video track list read by `convert` (`timeline.tracks?.video || []`). -/
def videoTracksOf (t : OurTimeline) : List OurTrack :=
  (t.tracks.bind OurTracks.video).getD []

/-- The audio track list read by `convert` (`timeline.tracks?.audio || []`). -/
def audioTracksOf (t : OurTimeline) : List OurTrack :=
  (t.tracks.bind OurTracks.audio).getD []

/-- The soundtrack fade effect chosen by `convert` from the fade flags. -/
def soundtrackEffect (s : OurSoundtrack) : Option String :=
  if s.fadeIn && s.fadeOut then some "fadeInFadeOut"
  else if s.fadeIn then some "fadeIn"
  else if s.fadeOut then some "fadeOut"
  else none

/-- `TimelineConverter.convert`: overlay tracks first, then video tracks,
then audio tracks; output block with defaulted format and resolution;
optional soundtrack with fade effect; optional webhook callback. -/
def convert (timeline : OurTimeline) (options : ConvertOptions) : ShotstackEdit :=
  { tracks :=
      convertCategory convertOverlayClip (overlayTracksOf timeline)
        ++ convertCategory convertVideoClip (videoTracksOf timeline)
        ++ convertCategory convertAudioClip (audioTracksOf timeline)
    soundtrack := timeline.soundtrack.map fun s =>
      { src := s.src, volume := s.volume.getD 1, effect := soundtrackEffect s }
    output :=
      { format := options.format.getD "mp4"
        resolution := options.resolution.getD "hd"
        fps := timeline.fps }
    callback := options.webhookUrl }

/-- Band of one 3x3 grid axis, in the words of the spec: below 0.33 is the
low band, above 0.66 the high band, otherwise the middle band. -/
inductive Band where
  | low | mid | high
deriving DecidableEq, Repr

/-- Quantize one normalized coordinate into its band (spec wording). -/
def bandOf (q : Rat) : Band :=
  if q < 0.33 then Band.low else if q > 0.66 then Band.high else Band.mid

/-- Map the nine cells of the 3x3 grid to their named anchors
(x band first, then y band), following the spec's description. -/
def anchorOf : Band → Band → Position
  | Band.low, Band.low => Position.topLeft
  | Band.mid, Band.low => Position.top
  | Band.high, Band.low => Position.topRight
  | Band.low, Band.mid => Position.left
  | Band.mid, Band.mid => Position.center
  | Band.high, Band.mid => Position.right
  | Band.low, Band.high => Position.bottomLeft
  | Band.mid, Band.high => Position.bottom
  | Band.high, Band.high => Position.bottomRight

/-- Number of tracks in a list whose clip list is non-empty. -/
def nonEmptyCount (ts : List OurTrack) : Nat :=
  (ts.filter fun t => !t.clips.isEmpty).length

end Conv

/-! ## Shared pipeline data model -/

/-- A script section (`ScriptSection` in both workflow variants). -/
structure ScriptSection where
  narration : String
  duration : Rat
  visualCues : String
  keywords : List String
deriving DecidableEq, Repr

/-- A generated script (`Script`). -/
structure Script where
  title : String
  sections : List ScriptSection
deriving DecidableEq, Repr

/-- A synthesized voiceover (`Voiceover`). -/
structure Voiceover where
  url : String
  duration : Rat
deriving DecidableEq, Repr

/-- JavaScript truthiness of an optional string: defined and non-empty. -/
def strTruthy : Option String → Bool
  | none => false
  | some s => !s.isEmpty

/-- JavaScript `o || d` on an optional string. -/
def strOr (o : Option String) (d : String) : String :=
  match o with
  | some s => if s.isEmpty then d else s
  | none => d

/-- The eight pipeline status values the spec defines for a Project. -/
def pipelineStatuses : List String :=
  ["starting", "processing", "script_generated", "voiceover_generated",
   "timeline_assembled", "complete", "error", "failed"]

/-! ## Pages-app workflow (src/src/workflows/video-production.ts) -/

namespace App

/-- A stock media item (`MediaItem` of the Pages-app workflow). -/
structure MediaItem where
  id : String
  type : String
  url : String
  previewUrl : String := ""
  duration : Option Rat := none
  width : Rat := 0
  height : Rat := 0
deriving DecidableEq, Repr

/-- The per-section result record built by the gather step (`SectionMedia`). -/
structure SectionMedia where
  sectionIndex : Nat
  media : List MediaItem
deriving DecidableEq, Repr

/-- Outcome of one stock-media search request: either an HTTP failure
(`!response.ok`) or a parsed body whose `media` field may be absent. -/
inductive StockResponse where
  | httpError (body : String)
  | ok (media : Option (List MediaItem))
deriving Repr

/-- The media list a section receives from its response: an empty list on
HTTP failure, otherwise `result.media || []`. -/
def responseMedia : StockResponse → List MediaItem
  | StockResponse.httpError _ => []
  | StockResponse.ok m => m.getD []

/-- The loop of the `gather-stock-media` step: one search per section index,
substituting an empty media list on failure and continuing. `i` is the next
index, the fuel is the number of sections still to process. -/
def gatherAux (oracle : Nat → StockResponse) : Nat → Nat → List SectionMedia
  | _, 0 => []
  | i, Nat.succ k =>
    (match oracle i with
     | StockResponse.httpError _ => { sectionIndex := i, media := [] }
     | StockResponse.ok m => { sectionIndex := i, media := m.getD [] })
      :: gatherAux oracle (i + 1) k

/-- The `gather-stock-media` step over the script sections, with `oracle`
giving each section search's outcome. -/
def gatherStockMedia (sections : List ScriptSection) (oracle : Nat → StockResponse) :
    List SectionMedia :=
  gatherAux oracle 0 sections.length

/-- The asset of a timeline clip (`TimelineClip.asset` in the source). -/
structure TlAsset where
  type : String
  src : Option String := none
  text : Option String := none
  style : Option String := none
  color : Option String := none
  size : Option String := none
  background : Option String := none
  position : Option String := none
deriving DecidableEq, Repr

/-- A timeline clip (`TimelineClip`). -/
structure TimelineClip where
  asset : TlAsset
  start : Rat
  length : Rat
  fit : Option String := none
deriving DecidableEq, Repr

/-- One track of the assembled timeline (`{ clips: TimelineClip[] }`). -/
structure AppTrack where
  clips : List TimelineClip
deriving DecidableEq, Repr

/-- The soundtrack of the assembled timeline. -/
structure AppSoundtrack where
  src : String
  effect : Option String := none
  volume : Option Rat := none
deriving DecidableEq, Repr

/-- The assembled timeline (`ShotstackTimeline` of the Pages-app workflow). -/
structure ShotstackTimeline where
  soundtrack : Option AppSoundtrack := none
  tracks : List AppTrack
deriving DecidableEq, Repr

/-- The opening title card pushed first by `assemble-timeline` (3 seconds). -/
def titleClip (title : String) : TimelineClip :=
  { asset := { type := "title", text := some title, style := some "future",
               color := some "#ffffff", size := some "large",
               background := some "#000000", position := some "center" }
    start := 0, length := 3 }

/-- The per-section label pushed for section index `i` starting at time `t`
(2 seconds, pushed only for `i > 0` with truthy `visualCues`). -/
def sectionLabelClip (i : Nat) (t : Rat) : TimelineClip :=
  { asset := { type := "title", text := some ("Section " ++ toString (i + 1)),
               style := some "minimal", color := some "#ffffff",
               size := some "small", position := some "bottomLeft" }
    start := t, length := 2 }

/-- The closing call-to-action card pushed last by `assemble-timeline`. -/
def endCardClip (totalDuration : Rat) : TimelineClip :=
  { asset := { type := "title", text := some "Thanks for watching!",
               style := some "future", color := some "#ffffff",
               size := some "medium", background := some "#000000",
               position := some "center" }
    start := totalDuration - 3, length := 3 }

/-- The video clips pushed by the section loop of `assemble-timeline`, in
section order. `i` is the current section index and `t` the running start
time. A section contributes a clip exactly when its `SectionMedia` entry
exists and is non-empty, using the first item. -/
def buildVideoClips (sectionMedia : List SectionMedia) :
    List ScriptSection → Nat → Rat → List TimelineClip
  | [], _, _ => []
  | sec :: rest, i, t =>
    (match sectionMedia.find? fun m => m.sectionIndex == i with
     | some m =>
       match m.media with
       | item :: _ =>
         [{ asset := { type := item.type, src := some item.url }
            start := t, length := sec.duration, fit := some "cover" }]
       | [] => []
     | none => [])
      ++ buildVideoClips sectionMedia rest (i + 1) (t + sec.duration)

/-- The per-section label overlays pushed by the same section loop of
`assemble-timeline`, in section order. A section contributes a label exactly
when `i > 0` and its `visualCues` is truthy. -/
def buildLabelClips : List ScriptSection → Nat → Rat → List TimelineClip
  | [], _, _ => []
  | sec :: rest, i, t =>
    (if 0 < i ∧ sec.visualCues ≠ "" then [sectionLabelClip i t] else [])
      ++ buildLabelClips rest (i + 1) (t + sec.duration)

/-- Total duration: `script.sections.reduce((sum, s) => sum + s.duration, 0)`. -/
def totalDurationOf (sections : List ScriptSection) : Rat :=
  sections.foldl (fun sum s => sum + s.duration) 0

/-- The `assemble-timeline` step: title card, per-section video clips and
labels, end card, and the voiceover as soundtrack with a fadeOut effect. -/
def assembleTimeline (script : Script) (sectionMedia : List SectionMedia)
    (voiceover : Voiceover) : ShotstackTimeline :=
  let totalDuration := totalDurationOf script.sections
  let videoClips := buildVideoClips sectionMedia script.sections 0 0
  let labels := buildLabelClips script.sections 0 0
  let textOverlays := titleClip script.title :: (labels ++ [endCardClip totalDuration])
  { soundtrack := some { src := voiceover.url, effect := some "fadeOut", volume := some 1 }
    tracks := [{ clips := textOverlays }, { clips := videoClips }] }

/-- The clip list of the text-overlay track (the first track) of an
assembled timeline. -/
def overlayClips (tl : ShotstackTimeline) : List TimelineClip :=
  ((tl.tracks.head?).map AppTrack.clips).getD []

/-- Number of sections eligible for a label: index above zero and a
non-empty `visualCues`. -/
def labelEligibleCount (sections : List ScriptSection) : Nat :=
  sections.enum.countP fun p => decide (0 < p.1) && decide (p.2.visualCues ≠ "")

/-- Outcome of one render-status poll in `wait-for-render`. -/
inductive PollResult where
  | httpError (code : Nat)
  | ok (status : String) (url : Option String) (err : Option String)
deriving Repr

/-- A poll outcome on which the `wait-for-render` loop keeps polling:
a 2xx response whose status is neither `done` with a truthy url nor
`failed`. -/
def nonTerminal : PollResult → Bool
  | PollResult.httpError _ => false
  | PollResult.ok st url _ => !(st == "done" && strTruthy url) && !(st == "failed")

/-- The polling loop of `wait-for-render`: `i` is the attempt number and the
fuel is the number of attempts left out of `maxAttempts`. -/
def waitAux (polls : Nat → PollResult) : Nat → Nat → Except String String
  | _, 0 => Except.error "Render timed out after 10 minutes"
  | i, Nat.succ k =>
    match polls i with
    | PollResult.httpError code =>
      Except.error ("Render status check failed: " ++ toString code)
    | PollResult.ok st url err =>
      if st == "done" && strTruthy url then Except.ok (url.getD "")
      else if st == "failed" then
        Except.error ("Render failed: " ++ strOr err "Unknown error")
      else waitAux polls (i + 1) k

/-- The attempt bound of `wait-for-render` (60 polls at 10s intervals). -/
def maxAttempts : Nat := 60

/-- The `wait-for-render` step. -/
def waitForRender (polls : Nat → PollResult) : Except String String :=
  waitAux polls 0 maxAttempts

/-- External-call outcomes feeding one run of the Pages-app workflow. -/
structure AppRunInputs where
  script : Except String Script
  voiceover : Except String Voiceover
  stockOracle : Nat → StockResponse
  renderSubmit : Except String String
  polls : Nat → PollResult

/-- Observable outcome of a run: the ordered Project `status` values written
to the database, the error message captured by the catch block (if any), and
the returned or re-raised result. -/
structure RunOutcome where
  writes : List String
  captured : Option String := none
  result : Except String String
deriving Repr

/-- The main line of `VideoProductionWorkflow.run` (everything inside the
`try`): the sequence of status writes of the completed steps and either the
output url or the first escaping exception. The pure steps
`gather-stock-media` and `assemble-timeline` never throw and write no
status. -/
def runAppBody (inp : AppRunInputs) : List String × Except String String :=
  match inp.script with
  | Except.error e => ([], Except.error e)
  | Except.ok script =>
    match inp.voiceover with
    | Except.error e => (["script_generated"], Except.error e)
    | Except.ok voiceover =>
      let _media := gatherStockMedia script.sections inp.stockOracle
      let _timeline := assembleTimeline script _media voiceover
      match inp.renderSubmit with
      | Except.error e =>
        (["script_generated", "voiceover_generated", "timeline_assembled"], Except.error e)
      | Except.ok _renderId =>
        match waitForRender inp.polls with
        | Except.error e =>
          (["script_generated", "voiceover_generated", "timeline_assembled"], Except.error e)
        | Except.ok url =>
          (["script_generated", "voiceover_generated", "timeline_assembled", "complete"],
           Except.ok url)

/-- `VideoProductionWorkflow.run` of the Pages-app: the main line wrapped in
the single top-level catch, which writes status `error`, captures the
message, and re-throws. -/
def runApp (inp : AppRunInputs) : RunOutcome :=
  match runAppBody inp with
  | (ws, Except.ok url) => { writes := ws, result := Except.ok url }
  | (ws, Except.error e) =>
    { writes := ws ++ ["error"], captured := some e, result := Except.error e }

/-- Outcome of the `POST /start` call made by the app routes. -/
inductive StartCallResult where
  | httpFail
  | threw
  | okWid (wid : String)
deriving DecidableEq, Repr

/-- Project `status` values written by `useCreateProject`, in order: the
insert with `starting`, then `failed` on a failed or throwing start call,
or `processing` on success. -/
def createStatusWrites (r : StartCallResult) : List String :=
  "starting" ::
    (match r with
     | StartCallResult.httpFail => ["failed"]
     | StartCallResult.threw => ["failed"]
     | StartCallResult.okWid _ => ["processing"])

/-- The canonical persisted Project row (projects table). -/
structure ProjectRow where
  id : String
  prompt : String
  duration : Rat
  status : String
  workflow_id : Option String := none
  output_url : Option String := none
  script_url : Option String := none
  script_json : Option String := none
  timeline_json : Option String := none
  timeline_url : Option String := none
  voiceover_url : Option String := none
  error_message : Option String := none
deriving DecidableEq, Repr

/-- The reset UPDATE issued by `useRetryProject`: status back to `starting`,
workflow id and all downstream artifact fields cleared. -/
def retryReset (p : ProjectRow) : ProjectRow :=
  { p with status := "starting", workflow_id := none, output_url := none,
           script_json := none, timeline_json := none, timeline_url := none,
           voiceover_url := none, error_message := none }

/-- An observable action of the retry route, in execution order. -/
inductive RetryEvent where
  | dbUpdate (row : ProjectRow)
  | startRun (projectId : String) (prompt : String) (duration : Rat)
deriving DecidableEq, Repr

/-- Whether a retry event is the workflow start request. -/
def isStartRun : RetryEvent → Bool
  | RetryEvent.startRun _ _ _ => true
  | _ => false

/-- `useRetryProject`: look up the row; if found, issue the reset UPDATE,
then the `POST /start` request, then record the outcome (`failed` on a
failed or throwing start call, `processing` with the workflow id on
success). -/
def useRetryProject (row : Option ProjectRow) (startResult : StartCallResult) :
    List RetryEvent :=
  match row with
  | none => []
  | some p =>
    let afterReset := retryReset p
    RetryEvent.dbUpdate afterReset ::
    RetryEvent.startRun p.id p.prompt p.duration ::
      (match startResult with
       | StartCallResult.httpFail =>
         [RetryEvent.dbUpdate { afterReset with status := "failed" }]
       | StartCallResult.threw =>
         [RetryEvent.dbUpdate { afterReset with status := "failed" }]
       | StartCallResult.okWid wid =>
         [RetryEvent.dbUpdate
           { afterReset with status := "processing", workflow_id := some wid }])

/-- Project `status` values written by `useRetryProject`, in order. -/
def retryStatusWrites (row : Option ProjectRow) (r : StartCallResult) : List String :=
  (useRetryProject row r).filterMap fun e =>
    match e with
    | RetryEvent.dbUpdate p => some p.status
    | _ => none

end App

/-! ## Worker-variant workflow and HTTP handlers (workers/video-workflow) -/

namespace Worker

/-- The fallback script built by the worker `generate-script` step when the
model response fails to parse as JSON. -/
def fallbackScript (prompt : String) (duration : Rat) (content : String) : Script :=
  { title := prompt
    sections := [{ narration := if content.isEmpty then prompt else content
                   duration := duration
                   visualCues := "General footage"
                   keywords := (prompt.splitOn " ").take 5 }] }

/-- The worker `generate-script` step: the parsed script when the response
parses, the fallback otherwise. This step does not throw on a parse failure. -/
def scriptStep (prompt : String) (duration : Rat) (rawContent : String)
    (parsed : Option Script) : Script :=
  parsed.getD (fallbackScript prompt duration rawContent)

/-- A stock clip as mapped by the worker gather step. -/
structure StockClip where
  id : String
  url : String
  duration : Rat
  provider : String := "pexels"
deriving DecidableEq, Repr

/-- Outcome of the single stock-media search of the worker gather step. -/
inductive WStockOutcome where
  | threw
  | notSuccess
  | videos (vs : List StockClip)
deriving Repr

/-- The worker `gather-stock-media` step: its internal try/catch and success
check turn every failure into an empty list; it never throws. -/
def gatherStockMediaW : WStockOutcome → List StockClip
  | WStockOutcome.threw => []
  | WStockOutcome.notSuccess => []
  | WStockOutcome.videos vs => vs

/-- Outcome of one status poll in the worker `render-video` step. -/
inductive WPoll where
  | httpError
  | st (status : String) (url : Option String) (err : Option String)
deriving Repr

/-- JavaScript template interpolation of a possibly-undefined string. -/
def jsInterp : Option String → String
  | some s => s
  | none => "undefined"

/-- The polling loop of the worker `render-video` step: a non-2xx status
response just consumes an attempt; `done` returns the (possibly absent)
url; `failed` throws; exhausting the 20 attempts throws a timeout. -/
def wRenderAux (polls : Nat → WPoll) : Nat → Nat → Except String (Option String)
  | _, 0 => Except.error "Render timeout - check status manually"
  | i, Nat.succ k =>
    match polls i with
    | WPoll.httpError => wRenderAux polls (i + 1) k
    | WPoll.st s url err =>
      if s == "done" then Except.ok url
      else if s == "failed" then Except.error ("Render failed: " ++ jsInterp err)
      else wRenderAux polls (i + 1) k

/-- The worker `render-video` step: submission, then up to 20 polls. -/
def wRender (submit : Except String String) (polls : Nat → WPoll) :
    Except String (Option String) :=
  match submit with
  | Except.error e => Except.error e
  | Except.ok _rid => wRenderAux polls 0 20

/-- External-call outcomes feeding one run of the worker workflow. -/
structure WorkerRunInputs where
  prompt : String
  duration : Rat
  rawContent : String := ""
  parsed : Option Script := none
  voiceover : Except String Voiceover
  stock : WStockOutcome := WStockOutcome.threw
  renderSubmit : Except String String
  polls : Nat → WPoll

/-- Observable outcome of a worker run: status writes and the returned value
or propagated exception. -/
structure WRunOutcome where
  writes : List String
  result : Except String (Option String)
deriving Repr

/-- `VideoProductionWorkflow.run` of the worker variant. There is no
top-level try/catch: the first escaping step exception propagates to the
platform with no further status write. -/
def runWorker (inp : WorkerRunInputs) : WRunOutcome :=
  let _script := scriptStep inp.prompt inp.duration inp.rawContent inp.parsed
  match inp.voiceover with
  | Except.error e => { writes := ["script_generated"], result := Except.error e }
  | Except.ok _v =>
    let _stock := gatherStockMediaW inp.stock
    match wRender inp.renderSubmit inp.polls with
    | Except.error e =>
      { writes := ["script_generated", "voiceover_generated", "timeline_assembled"]
        result := Except.error e }
    | Except.ok url =>
      { writes := ["script_generated", "voiceover_generated", "timeline_assembled", "complete"]
        result := Except.ok url }

/-- Body of a `POST /start` request to the worker. -/
structure StartRequest where
  projectId : String
  prompt : String
  duration : Rat
deriving DecidableEq, Repr

/-- `handleStart`: validate the body (JavaScript truthiness of the three
fields), create the workflow instance, persist status `workflow_started`,
and answer 200; a missing field answers 400 and a throwing creation 500,
each with no status write. Returns the status writes and the HTTP code. -/
def handleStart (body : StartRequest) (createOk : Bool) : List String × Nat :=
  if body.projectId = "" ∨ body.prompt = "" ∨ body.duration = 0 then ([], 400)
  else if createOk then (["workflow_started"], 200)
  else ([], 500)

/-- Body of a webhook callback to the worker `/webhook` endpoint. -/
structure VWBody where
  type : String := ""
  url : Option String := none
  projectId : Option String := none
deriving DecidableEq, Repr

/-- The worker `handleWebhook`: a `render_complete` callback writes status
`complete`; a body that fails to parse answers 500. Returns the status
writes and the HTTP code. -/
def handleWebhookVW (body : Except String VWBody) : List String × Nat :=
  match body with
  | Except.error _ => ([], 500)
  | Except.ok b => (if b.type == "render_complete" then ["complete"] else [], 200)

end Worker

/-! ## Render-service webhook handler (part of the render service worker) -/

namespace RS

/-- Parsed body of a Shotstack webhook callback. -/
structure WebhookMsg where
  id : String
  status : String
  url : Option String := none
  error : Option String := none
deriving DecidableEq, Repr

/-- A render job record stored in KV. -/
structure RenderJob where
  project_id : String
  instance_id : String
  status : String
  webhook_url : Option String := none
deriving DecidableEq, Repr

/-- Outcomes of the fallible operations inside `handleWebhook`. -/
structure WebhookScenario where
  parsed : Except String WebhookMsg
  job : Except String (Option RenderJob)
  processOk : Bool := true
  forwardFailed : Except String Unit := Except.ok ()

/-- An HTTP reply of the render service. -/
structure HttpReply where
  status : Nat
  success : Bool
  errorStr : Option String := none
deriving DecidableEq, Repr

/-- A side effect performed by `handleWebhook`. -/
inductive RSEffect where
  | kvPut (id : String) (status : String)
  | r2Put (key : String)
  | forward (url : String) (status : String)
deriving DecidableEq, Repr

/-- The render-service `handleWebhook`: update the stored job, on `done`
with a url download/upload/forward inside an inner try whose failures are
only logged, on `failed` forward the error, and answer 200 on every path —
the outer catch also answers 200, carrying the error string. -/
def handleWebhookRS (sc : WebhookScenario) : HttpReply × List RSEffect :=
  match sc.parsed with
  | Except.error e => ({ status := 200, success := true, errorStr := some e }, [])
  | Except.ok w =>
    match sc.job with
    | Except.error e => ({ status := 200, success := true, errorStr := some e }, [])
    | Except.ok none => ({ status := 200, success := true }, [])
    | Except.ok (some job) =>
      let eff0 := [RSEffect.kvPut w.id w.status]
      if w.status == "done" && strTruthy w.url then
        if sc.processOk then
          ({ status := 200, success := true },
           eff0 ++ [RSEffect.r2Put ("renders/" ++ job.project_id ++ "/" ++ w.id ++ ".mp4")]
                ++ (match job.webhook_url with
                    | some u => [RSEffect.forward u "completed"]
                    | none => []))
        else ({ status := 200, success := true }, eff0)
      else if w.status == "failed" then
        match job.webhook_url with
        | some u =>
          (match sc.forwardFailed with
           | Except.ok _ =>
             ({ status := 200, success := true }, eff0 ++ [RSEffect.forward u "failed"])
           | Except.error e =>
             ({ status := 200, success := true, errorStr := some e }, eff0))
        | none => ({ status := 200, success := true }, eff0)
      else ({ status := 200, success := true }, eff0)

end RS

/-- The pipeline statuses together with the extra `workflow_started` value
persisted by the worker start handler. -/
def extendedStatuses : List String := pipelineStatuses ++ ["workflow_started"]

/-! ## Concrete instances used by counterexamples and witnesses -/

/-- A valid start request body. -/
def cexStart : Worker.StartRequest :=
  { projectId := "p1", prompt := "solar power basics", duration := 60 }

/-- A stock media item. -/
def wItem : App.MediaItem :=
  { id := "m1", type := "video", url := "https://cdn.example/v1.mp4"
    previewUrl := "https://cdn.example/v1.jpg", duration := some 12
    width := 1920, height := 1080 }

/-- A two-section script section list. -/
def wSections : List ScriptSection :=
  [{ narration := "intro", duration := 10, visualCues := "city skyline"
     keywords := ["city"] },
   { narration := "outro", duration := 12, visualCues := "sunset"
     keywords := ["sunset"] }]

/-- A stock-search oracle that fails for section 0 and succeeds for every
other section. -/
def wOracle : Nat → App.StockResponse := fun i =>
  if i = 0 then App.StockResponse.httpError "HTTP 500" else App.StockResponse.ok (some [wItem])

/-- A script whose second section has an empty `visualCues`. -/
def cexScript : Script :=
  { title := "Demo"
    sections :=
      [{ narration := "a", duration := 10, visualCues := "intro shots", keywords := [] },
       { narration := "b", duration := 10, visualCues := "", keywords := [] }] }

/-- A voiceover artifact. -/
def cexVoice : Voiceover := { url := "https://cdn.example/vo.mp3", duration := 20 }

/-- Worker run inputs whose voiceover step fails. -/
def cexWorkerInp : Worker.WorkerRunInputs :=
  { prompt := "p", duration := 60
    voiceover := Except.error "Voiceover generation failed: 500"
    renderSubmit := Except.error "unused"
    polls := fun _ => Worker.WPoll.httpError }

/-- Pages-app run inputs whose script step fails. -/
def cexAppInp : App.AppRunInputs :=
  { script := Except.error "Failed to parse script JSON from AI response"
    voiceover := Except.error "unused"
    stockOracle := fun _ => App.StockResponse.httpError ""
    renderSubmit := Except.error "unused"
    polls := fun _ => App.PollResult.httpError 0 }

/-- A poll oracle that reports `done` with a url immediately. -/
def wPolls : Nat → App.PollResult :=
  fun _ => App.PollResult.ok "done" (some "https://cdn.example/out.mp4") none

/-- A Project row in the terminal `error` state with every artifact set. -/
def cexErrorRow : App.ProjectRow :=
  { id := "p1", prompt := "solar power basics", duration := 60, status := "error"
    workflow_id := some "wf1", output_url := some "https://o"
    script_url := some "projects/p1/script.json", script_json := some "\x7b\x7d"
    timeline_json := some "\x7b\x7d", timeline_url := some "projects/p1/timeline.json"
    voiceover_url := some "https://v", error_message := some "boom" }

/-- A concrete internal timeline exercising every converter branch. -/
def cexTimeline : Conv.OurTimeline :=
  { fps := 25
    tracks := some
      { overlay := some
          [{ clips := [{ type := "text", content := "Hello"
                         position := some { x := 0.5, y := 0.9 }
                         style := some { color := some "#fff" }
                         start := 0, duration := 3 }] }]
        video := some
          [{ clips := [{ type := "video", src := "https://cdn.example/v1.mp4"
                         transition := some "fade", start := 0, duration := 10 }] },
           { clips := [] }]
        audio := none }
    soundtrack := some { src := "https://cdn.example/vo.mp3", fadeOut := true } }

/-- A second copy of the concrete internal timeline. -/
def cexTimeline2 : Conv.OurTimeline := cexTimeline

/-- Concrete converter options. -/
def cexOptions : Conv.ConvertOptions :=
  { resolution := some "hd", webhookUrl := some "https://hook.example/cb" }

/-- A second copy of the concrete converter options. -/
def cexOptions2 : Conv.ConvertOptions := cexOptions

/-! ## Theorems -/

/-- Helper: a category loop of the converter keeps exactly the tracks whose
input clip list is non-empty, in order, converting every clip. -/
theorem convertCategory_eq (f : Conv.OurClip → Conv.ShotstackClip) (ts : List Conv.OurTrack) :
    Conv.convertCategory f ts
      = (ts.filter fun tr => !tr.clips.isEmpty).map fun tr => { clips := tr.clips.map f } := by
  induction ts with
  | nil => rfl
  | cons t ts ih =>
    cases hc : t.clips with
    | nil =>
      simp [Conv.convertCategory, List.filterMap_cons, List.filter_cons, hc, ih,
        Conv.convertCategory] at *
      exact ih
    | cons c cs =>
      simp [Conv.convertCategory, List.filterMap_cons, List.filter_cons, hc] at *
      exact ih

/-- C9: every text overlay position is derived by quantizing the normalized
(x, y) coordinates into thirds of a 3x3 grid — below 0.33 low, above 0.66
high, otherwise middle — with the nine cells mapped to the named anchors,
and an absent position defaults to center. -/
theorem convertPosition_grid :
    (∀ c : Conv.Coord,
        Conv.convertPosition (some c) = Conv.anchorOf (Conv.bandOf c.x) (Conv.bandOf c.y))
    ∧ Conv.convertPosition none = Conv.Position.center := by
  refine ⟨fun c => ?_, rfl⟩
  simp only [Conv.convertPosition, Conv.bandOf]
  split_ifs <;> rfl

/-- C10: the converter output track list is exactly the converted overlay
tracks, then the converted video tracks, then the converted audio tracks,
each category preserving input order, with every empty input track omitted
(and a missing category treated as empty), so the output track count is the
number of non-empty input tracks. -/
theorem convert_track_layout (t : Conv.OurTimeline) (o : Conv.ConvertOptions) :
    (Conv.convert t o).tracks
      = ((Conv.overlayTracksOf t).filter fun tr => !tr.clips.isEmpty).map
            (fun tr => { clips := tr.clips.map Conv.convertOverlayClip })
        ++ ((Conv.videoTracksOf t).filter fun tr => !tr.clips.isEmpty).map
            (fun tr => { clips := tr.clips.map Conv.convertVideoClip })
        ++ ((Conv.audioTracksOf t).filter fun tr => !tr.clips.isEmpty).map
            (fun tr => { clips := tr.clips.map Conv.convertAudioClip })
    ∧ (Conv.convert t o).tracks.length
      = Conv.nonEmptyCount (Conv.overlayTracksOf t)
        + Conv.nonEmptyCount (Conv.videoTracksOf t)
        + Conv.nonEmptyCount (Conv.audioTracksOf t) := by
  constructor
  · simp [Conv.convert, convertCategory_eq]
  · simp [Conv.convert, convertCategory_eq, Conv.nonEmptyCount]
    omega

/-- C8: the Timeline Converter is deterministic — converting equal
Timeline and options values yields identical output. -/
theorem convert_deterministic (t1 t2 : Conv.OurTimeline) (o1 o2 : Conv.ConvertOptions)
    (ht : t1 = t2) (ho : o1 = o2) : Conv.convert t1 o1 = Conv.convert t2 o2 := by
  subst ht
  subst ho
  rfl

/-- Witness for C8 at a concrete timeline and options value. -/
theorem convert_deterministic_witness :
    Conv.convert cexTimeline cexOptions = Conv.convert cexTimeline2 cexOptions2 :=
  convert_deterministic cexTimeline cexTimeline2 cexOptions cexOptions2 rfl rfl

/-- Helper: the gather loop produces one entry per unit of fuel. -/
theorem gatherAux_length (oracle : Nat → App.StockResponse) :
    ∀ k i, (App.gatherAux oracle i k).length = k := by
  intro k
  induction k with
  | zero => intro i; rfl
  | succ k ih => intro i; simp [App.gatherAux, ih]

/-- Helper: entry `j` of the gather loop comes from the response for
section `i + j` alone. -/
theorem gatherAux_get (oracle : Nat → App.StockResponse) :
    ∀ k i j, j < k →
      (App.gatherAux oracle i k).get? j
        = some { sectionIndex := i + j, media := App.responseMedia (oracle (i + j)) } := by
  intro k
  induction k with
  | zero => intro i j hj; exact absurd hj (Nat.not_lt_zero j)
  | succ k ih =>
    intro i j hj
    cases j with
    | zero =>
      simp only [App.gatherAux, List.get?_cons_zero, Nat.add_zero]
      cases ho : oracle i <;> simp [App.responseMedia, ho]
    | succ j =>
      have hj2 : j < k := Nat.lt_of_succ_lt_succ hj
      have harith : i + 1 + j = i + (j + 1) := by omega
      simp only [App.gatherAux, List.get?_cons_succ]
      rw [ih (i + 1) j hj2, harith]

/-- C2: in the gather-stock-media step, a provider failure for the search of
section `i` leaves the merged list at exactly one entry per section, with
the entry of section `i` carrying an empty media list and every other
section receiving exactly the media of its own response. -/
theorem gatherStockMedia_partial_failure (sections : List ScriptSection)
    (oracle : Nat → App.StockResponse) (i : Nat) (e : String)
    (hi : i < sections.length) (hf : oracle i = App.StockResponse.httpError e) :
    (App.gatherStockMedia sections oracle).length = sections.length
    ∧ (App.gatherStockMedia sections oracle).get? i
        = some { sectionIndex := i, media := [] }
    ∧ ∀ j, j < sections.length → j ≠ i →
        (App.gatherStockMedia sections oracle).get? j
          = some { sectionIndex := j, media := App.responseMedia (oracle j) } := by
  refine ⟨gatherAux_length oracle _ 0, ?_, ?_⟩
  · have h := gatherAux_get oracle sections.length 0 i hi
    simp only [Nat.zero_add] at h
    rw [App.gatherStockMedia, h, hf]
    rfl
  · intro j hj _
    have h := gatherAux_get oracle sections.length 0 j hj
    simpa [App.gatherStockMedia] using h

/-- Witness for C2: a failing search for section 0 of a two-section script. -/
theorem gatherStockMedia_partial_failure_witness :
    (App.gatherStockMedia wSections wOracle).length = wSections.length
    ∧ (App.gatherStockMedia wSections wOracle).get? 0
        = some { sectionIndex := 0, media := [] }
    ∧ ∀ j, j < wSections.length → j ≠ 0 →
        (App.gatherStockMedia wSections wOracle).get? j
          = some { sectionIndex := j, media := App.responseMedia (wOracle j) } :=
  gatherStockMedia_partial_failure wSections wOracle 0 "HTTP 500" (by decide) rfl

/-- Helper: the label overlays built by the section loop number exactly the
sections of positive index whose visualCues is non-empty. -/
theorem buildLabelClips_length :
    ∀ (secs : List ScriptSection) (i : Nat) (t : Rat),
      (App.buildLabelClips secs i t).length
        = (secs.enumFrom i).countP fun p =>
            decide (0 < p.1) && decide (p.2.visualCues ≠ "") := by
  intro secs
  induction secs with
  | nil => intro i t; rfl
  | cons s rest ih =>
    intro i t
    rw [show List.enumFrom i (s :: rest) = (i, s) :: List.enumFrom (i + 1) rest from rfl,
      List.countP_cons]
    by_cases h : 0 < i ∧ s.visualCues ≠ ""
    · have hb : (decide (0 < (i, s).1) && decide ((i, s).2.visualCues ≠ "")) = true := by
        simp [h.1, h.2]
      simp [App.buildLabelClips, h, ih, hb]
    · have hb : (decide (0 < (i, s).1) && decide ((i, s).2.visualCues ≠ "")) = false := by
        rcases not_and_or.mp h with h1 | h1 <;> simp [h1]
      simp [App.buildLabelClips, h, ih, hb]

/-- Counterexample for C3: a two-section script whose second section has an
empty visualCues gets no per-section label, so the overlay track has 2
clips, not N + 1 = 3 as exactly one opening, N − 1 labels and one closing
would require. -/
theorem assembleTimeline_label_skipped_cex :
    (App.overlayClips (App.assembleTimeline cexScript [] cexVoice)).length = 2
    ∧ cexScript.sections.length + 1 = 3
    ∧ (App.overlayClips (App.assembleTimeline cexScript [] cexVoice)).length
        ≠ cexScript.sections.length + 1 := by
  refine ⟨?_, rfl, ?_⟩ <;> decide

/-- C3 amended: the overlay track starts with exactly one opening title
card, ends with exactly one closing card, and carries exactly one label per
section after the first whose visualCues is non-empty (so N − 1 labels only
when every later section has visual cues). -/
theorem assembleTimeline_overlay_structure (script : Script)
    (sectionMedia : List App.SectionMedia) (voiceover : Voiceover)
    (h : script.sections ≠ []) :
    (App.overlayClips (App.assembleTimeline script sectionMedia voiceover)).head?
        = some (App.titleClip script.title)
    ∧ (App.overlayClips (App.assembleTimeline script sectionMedia voiceover)).getLast?
        = some (App.endCardClip (App.totalDurationOf script.sections))
    ∧ (App.overlayClips (App.assembleTimeline script sectionMedia voiceover)).length
        = 2 + App.labelEligibleCount script.sections := by
  have hov : App.overlayClips (App.assembleTimeline script sectionMedia voiceover)
      = App.titleClip script.title
          :: (App.buildLabelClips script.sections 0 0
              ++ [App.endCardClip (App.totalDurationOf script.sections)]) := rfl
  refine ⟨by rw [hov]; rfl, ?_, ?_⟩
  · rw [hov, ← List.cons_append, List.getLast?_concat]
  · rw [hov]
    simp [buildLabelClips_length, App.labelEligibleCount, List.enum]
    omega

/-- Helper: the poll loop only reads the polls it consumes. -/
theorem waitAux_congr (p q : Nat → App.PollResult) :
    ∀ k i, (∀ j, j < k → p (i + j) = q (i + j)) →
      App.waitAux p i k = App.waitAux q i k := by
  intro k
  induction k with
  | zero => intro i _; rfl
  | succ k ih =>
    intro i hpq
    have h0 : p i = q i := by simpa using hpq 0 (Nat.succ_pos k)
    have hrec : App.waitAux p (i + 1) k = App.waitAux q (i + 1) k := by
      apply ih
      intro j hj
      have h2 := hpq (j + 1) (Nat.succ_lt_succ hj)
      have harith : i + (j + 1) = i + 1 + j := by omega
      rwa [harith] at h2
    simp only [App.waitAux]
    rw [h0]
    cases q i with
    | httpError c => rfl
    | ok st url err =>
      by_cases hb1 : (st == "done" && strTruthy url) = true
      · simp [hb1]
      · by_cases hb2 : (st == "failed") = true
        · simp [hb1, hb2]
        · simp [hb1, hb2, hrec]

/-- Helper: the poll loop skips a run of non-terminal polls. -/
theorem waitAux_skip (p : Nat → App.PollResult) :
    ∀ k i, (∀ j, j < k → App.nonTerminal (p (i + j)) = true) →
      ∀ m, App.waitAux p i (k + m) = App.waitAux p (i + k) m := by
  intro k
  induction k with
  | zero => intro i _ m; simp
  | succ k ih =>
    intro i hnt m
    have h0 : App.nonTerminal (p i) = true := by simpa using hnt 0 (Nat.succ_pos k)
    have hsucc : k + 1 + m = (k + m) + 1 := by omega
    rw [hsucc]
    simp only [App.waitAux]
    cases hp : p i with
    | httpError c => rw [hp] at h0; simp [App.nonTerminal] at h0
    | ok st url err =>
      rw [hp] at h0
      simp only [App.nonTerminal, Bool.and_eq_true, Bool.not_eq_true'] at h0
      have hrec := ih (i + 1)
        (fun j hj => by
          have h2 := hnt (j + 1) (Nat.succ_lt_succ hj)
          have harith : i + (j + 1) = i + 1 + j := by omega
          rwa [harith] at h2) m
      have harith2 : i + 1 + k = i + (k + 1) := by omega
      rw [harith2] at hrec
      simp [h0.1, h0.2, hrec]

/-- C5: the wait-for-render step polls up to a fixed bound of 60 attempts
(it never reads a poll beyond the bound); a `done` poll with a url completes
the step with that url; a `failed` poll fails the step with the provider
message; 60 non-terminal polls fail the step with the timed-out message,
which differs from every provider-failure message. -/
theorem waitForRender_spec :
    (∀ p q : Nat → App.PollResult,
        (∀ j, j < App.maxAttempts → p j = q j) →
        App.waitForRender p = App.waitForRender q)
    ∧ (∀ (p : Nat → App.PollResult) (k : Nat) (url : String) (err : Option String),
        k < App.maxAttempts →
        (∀ j, j < k → App.nonTerminal (p j) = true) →
        p k = App.PollResult.ok "done" (some url) err →
        url ≠ "" →
        App.waitForRender p = Except.ok url)
    ∧ (∀ (p : Nat → App.PollResult) (k : Nat) (u : Option String) (err : Option String),
        k < App.maxAttempts →
        (∀ j, j < k → App.nonTerminal (p j) = true) →
        p k = App.PollResult.ok "failed" u err →
        App.waitForRender p = Except.error ("Render failed: " ++ strOr err "Unknown error"))
    ∧ (∀ p : Nat → App.PollResult,
        (∀ j, j < App.maxAttempts → App.nonTerminal (p j) = true) →
        App.waitForRender p = Except.error "Render timed out after 10 minutes")
    ∧ (∀ msg : String,
        "Render failed: " ++ msg ≠ "Render timed out after 10 minutes") := by
  have hmax : App.maxAttempts = 60 := rfl
  refine ⟨?_, ?_, ?_, ?_, ?_⟩
  · intro p q hpq
    exact waitAux_congr p q App.maxAttempts 0 (fun j hj => by simpa using hpq j hj)
  · intro p k url err hk hnt hpk hurl
    have hsplit : App.maxAttempts = k + (App.maxAttempts - k) := by omega
    have hm2 : App.maxAttempts - k = (App.maxAttempts - k - 1) + 1 := by omega
    unfold App.waitForRender
    rw [hsplit, waitAux_skip p k 0 (fun j hj => by simpa using hnt j hj), hm2]
    simp only [App.waitAux, Nat.zero_add]
    rw [hpk]
    have hemp : url.isEmpty = false := by
      cases h : url.isEmpty
      · rfl
      · exact absurd ((String.isEmpty_iff url).mp h) hurl
    simp [strTruthy, hemp]
  · intro p k u err hk hnt hpk
    have hsplit : App.maxAttempts = k + (App.maxAttempts - k) := by omega
    have hm2 : App.maxAttempts - k = (App.maxAttempts - k - 1) + 1 := by omega
    unfold App.waitForRender
    rw [hsplit, waitAux_skip p k 0 (fun j hj => by simpa using hnt j hj), hm2]
    simp only [App.waitAux, Nat.zero_add]
    rw [hpk]
    simp [strTruthy]
  · intro p hnt
    have hskip := waitAux_skip p App.maxAttempts 0
      (fun j hj => by simpa using hnt j hj) 0
    exact hskip
  · intro msg h
    have hd := congrArg String.data h
    rw [String.data_append] at hd
    have k1 : ("Render failed: ".data ++ msg.data).take 15 = "Render failed: ".data := by
      have h2 := List.take_left "Render failed: ".data msg.data
      have hlen : ("Render failed: ".data).length = 15 := by decide
      rwa [hlen] at h2
    rw [hd] at k1
    exact absurd k1 (by decide)

/-- Witness for C5: a run whose first poll reports `done` with a url,
applied through the done conjunct of the theorem. -/
theorem waitForRender_spec_witness :
    App.waitForRender wPolls = Except.ok "https://cdn.example/out.mp4" :=
  waitForRender_spec.2.1 wPolls 0 "https://cdn.example/out.mp4" none
    (by decide)
    (fun j hj => absurd hj (Nat.not_lt_zero j))
    rfl
    (by decide)

/-- Witness for C3 amended at a concrete script. -/
theorem assembleTimeline_overlay_structure_witness :
    (App.overlayClips (App.assembleTimeline cexScript [] cexVoice)).head?
        = some (App.titleClip cexScript.title)
    ∧ (App.overlayClips (App.assembleTimeline cexScript [] cexVoice)).getLast?
        = some (App.endCardClip (App.totalDurationOf cexScript.sections))
    ∧ (App.overlayClips (App.assembleTimeline cexScript [] cexVoice)).length
        = 2 + App.labelEligibleCount cexScript.sections :=
  assembleTimeline_overlay_structure cexScript [] cexVoice (by decide)

/-- Helper: the main line of the Pages-app run never writes status `error`
itself (only the catch block does). -/
theorem runAppBody_writes_no_error (inp : App.AppRunInputs) :
    ((App.runAppBody inp).1).count "error" = 0 := by
  rcases inp with ⟨s, v, so, rs, polls⟩
  cases s with
  | error e => rfl
  | ok script =>
    cases v with
    | error e => rfl
    | ok voiceover =>
      cases rs with
      | error e => rfl
      | ok rid =>
        unfold App.runAppBody
        cases hw : App.waitForRender polls with
        | error e => rfl
        | ok url => rfl

/-- Counterexample for C4: the worker-variant run has no top-level catch —
a failing voiceover step leaves the last written status `script_generated`,
never writes `error` or `failed`, and propagates the exception. -/
theorem workerRun_uncaught_cex :
    (Worker.runWorker cexWorkerInp).writes = ["script_generated"]
    ∧ (Worker.runWorker cexWorkerInp).result
        = Except.error "Voiceover generation failed: 500"
    ∧ ((Worker.runWorker cexWorkerInp).writes).contains "error" = false
    ∧ ((Worker.runWorker cexWorkerInp).writes).contains "failed" = false :=
  ⟨rfl, rfl, rfl, rfl⟩

/-- C4 amended: in the Pages-app workflow run, any exception escaping a step
is caught exactly once at the top level — exactly one `error` status write,
appended after the main-line writes — with the message captured and the
exception re-raised; the worker-variant run has no such catch. -/
theorem appRun_top_level_catch (inp : App.AppRunInputs) (e : String)
    (h : (App.runAppBody inp).2 = Except.error e) :
    (App.runApp inp).writes = (App.runAppBody inp).1 ++ ["error"]
    ∧ (App.runApp inp).captured = some e
    ∧ (App.runApp inp).result = Except.error e
    ∧ ((App.runApp inp).writes).count "error" = 1 := by
  have hz := runAppBody_writes_no_error inp
  rcases hbody : App.runAppBody inp with ⟨ws, r⟩
  rw [hbody] at h hz
  simp only at h hz
  subst h
  unfold App.runApp
  rw [hbody]
  refine ⟨rfl, rfl, rfl, ?_⟩
  simp [List.count_append, hz]

/-- Witness for C4 amended: a run whose script step fails. -/
theorem appRun_top_level_catch_witness :
    (App.runApp cexAppInp).writes = (App.runAppBody cexAppInp).1 ++ ["error"]
    ∧ (App.runApp cexAppInp).captured
        = some "Failed to parse script JSON from AI response"
    ∧ (App.runApp cexAppInp).result
        = Except.error "Failed to parse script JSON from AI response"
    ∧ ((App.runApp cexAppInp).writes).count "error" = 1 :=
  appRun_top_level_catch cexAppInp "Failed to parse script JSON from AI response" rfl

/-- Counterexample for C1: the worker start handler persists the status
value `workflow_started`, which is not among the defined pipeline enum
values. -/
theorem handleStart_writes_workflow_started :
    (Worker.handleStart cexStart true).1 = ["workflow_started"]
    ∧ pipelineStatuses.contains "workflow_started" = false := by
  refine ⟨by decide, by decide⟩

/-- C1 amended: every Project status value persisted by the workflow runs,
the start handler, the webhook handler and the create/retry routes is one
of the defined pipeline enum values extended with `workflow_started`. -/
theorem statusWrites_within_extended :
    (∀ inp, ((App.runApp inp).writes).all
        (fun s => extendedStatuses.contains s) = true)
    ∧ (∀ inp, ((Worker.runWorker inp).writes).all
        (fun s => extendedStatuses.contains s) = true)
    ∧ (∀ (b : Worker.StartRequest) (ok : Bool),
        ((Worker.handleStart b ok).1).all
          (fun s => extendedStatuses.contains s) = true)
    ∧ (∀ body, ((Worker.handleWebhookVW body).1).all
        (fun s => extendedStatuses.contains s) = true)
    ∧ (∀ r, (App.createStatusWrites r).all
        (fun s => extendedStatuses.contains s) = true)
    ∧ (∀ row r, (App.retryStatusWrites row r).all
        (fun s => extendedStatuses.contains s) = true) := by
  refine ⟨?_, ?_, ?_, ?_, ?_, ?_⟩
  · intro inp
    rcases inp with ⟨s, v, so, rs, polls⟩
    cases s with
    | error e => rfl
    | ok script =>
      cases v with
      | error e => rfl
      | ok voiceover =>
        cases rs with
        | error e => rfl
        | ok rid =>
          unfold App.runApp App.runAppBody
          cases hw : App.waitForRender polls with
          | error e => rfl
          | ok url => rfl
  · intro inp
    rcases inp with ⟨pr, d, raw, parsed, v, stock, rs, polls⟩
    cases v with
    | error e => rfl
    | ok voiceover =>
      unfold Worker.runWorker
      cases hw : Worker.wRender rs polls with
      | error e => rfl
      | ok url => rfl
  · intro b ok
    unfold Worker.handleStart
    split_ifs <;> rfl
  · intro body
    cases body with
    | error e => rfl
    | ok b =>
      cases hb : (b.type == "render_complete") <;>
        simp [Worker.handleWebhookVW, hb, extendedStatuses, pipelineStatuses]
  · intro r
    cases r <;> rfl
  · intro row r
    cases row with
    | none => rfl
    | some p => cases r <;> rfl

/-- Counterexample for C6: the retry UPDATE lists `script_json`,
`timeline_json` and the output/timeline/voiceover urls but not
`script_url`, a projects-table column the Pages-app workflow populates —
so retrying an errored Project whose `script_url` is set leaves that
script field pointing at the old artifact instead of clearing it. -/
theorem useRetryProject_keeps_script_url_cex :
    cexErrorRow.status = "error"
    ∧ cexErrorRow.script_url = some "projects/p1/script.json"
    ∧ (App.useRetryProject (some cexErrorRow) (App.StartCallResult.okWid "wf2")).get? 0
        = some (App.RetryEvent.dbUpdate (App.retryReset cexErrorRow))
    ∧ (App.retryReset cexErrorRow).script_url = some "projects/p1/script.json"
    ∧ (App.retryReset cexErrorRow).script_url ≠ none :=
  ⟨rfl, rfl, rfl, rfl, fun hc => Option.noConfusion hc⟩

/-- C6 amended: retrying a Project whose prior run reached `error` first
issues a database update that resets status to `starting` and clears
output_url, timeline_url, voiceover_url, script_json, timeline_json and the
workflow id — but leaves `script_url` exactly as it was — and only
afterwards issues the start request: the sole start request of the flow
sits at position 1, after the reset at position 0. -/
theorem useRetryProject_resets_before_start (p : App.ProjectRow)
    (r : App.StartCallResult) (h : p.status = "error") :
    (∃ row : App.ProjectRow,
        (App.useRetryProject (some p) r).get? 0 = some (App.RetryEvent.dbUpdate row)
        ∧ row.status = "starting" ∧ row.output_url = none ∧ row.timeline_url = none
        ∧ row.voiceover_url = none ∧ row.script_json = none ∧ row.timeline_json = none
        ∧ row.workflow_id = none
        ∧ row.script_url = p.script_url)
    ∧ (App.useRetryProject (some p) r).get? 1
        = some (App.RetryEvent.startRun p.id p.prompt p.duration)
    ∧ ∀ n ev, (App.useRetryProject (some p) r).get? n = some ev →
        App.isStartRun ev = true → n = 1 := by
  refine ⟨⟨App.retryReset p, rfl, rfl, rfl, rfl, rfl, rfl, rfl, rfl, rfl⟩,
    by cases r <;> rfl, ?_⟩
  intro n ev hget hstart
  cases r <;> rcases n with _ | _ | _ | m <;>
    simp_all [App.useRetryProject, App.isStartRun, App.retryReset] <;>
    (subst hget; exact Bool.noConfusion hstart)

/-- Witness for C6 amended at a concrete errored Project row. -/
theorem useRetryProject_resets_before_start_witness :
    (∃ row : App.ProjectRow,
        (App.useRetryProject (some cexErrorRow) (App.StartCallResult.okWid "wf2")).get? 0
            = some (App.RetryEvent.dbUpdate row)
        ∧ row.status = "starting" ∧ row.output_url = none ∧ row.timeline_url = none
        ∧ row.voiceover_url = none ∧ row.script_json = none ∧ row.timeline_json = none
        ∧ row.workflow_id = none
        ∧ row.script_url = cexErrorRow.script_url)
    ∧ (App.useRetryProject (some cexErrorRow) (App.StartCallResult.okWid "wf2")).get? 1
        = some (App.RetryEvent.startRun cexErrorRow.id cexErrorRow.prompt cexErrorRow.duration)
    ∧ ∀ n ev,
        (App.useRetryProject (some cexErrorRow) (App.StartCallResult.okWid "wf2")).get? n
            = some ev →
        App.isStartRun ev = true → n = 1 :=
  useRetryProject_resets_before_start cexErrorRow (App.StartCallResult.okWid "wf2") rfl

/-- C7: the render-service webhook handler answers HTTP 200 with a success
body on every path, including when parsing, the job lookup, the completed-
render processing or the failure forwarding fails internally. -/
theorem handleWebhookRS_always_200 (sc : RS.WebhookScenario) :
    ((RS.handleWebhookRS sc).1).status = 200
    ∧ ((RS.handleWebhookRS sc).1).success = true := by
  rcases sc with ⟨parsed, job, pOk, fwd⟩
  cases parsed with
  | error e => exact ⟨rfl, rfl⟩
  | ok w =>
    cases job with
    | error e => exact ⟨rfl, rfl⟩
    | ok oj =>
      cases oj with
      | none => exact ⟨rfl, rfl⟩
      | some job =>
        cases hb1 : (w.status == "done" && strTruthy w.url) <;>
          cases hb2 : (w.status == "failed") <;>
          cases pOk <;>
          rcases hwh : job.webhook_url with _ | u <;>
          rcases fwd with fe | fu <;>
          simp [RS.handleWebhookRS, hb1, hb2, hwh]

end LivingArts
